import Mathlib

/-!
Shallow embedding of the `actor-rtc/actr-cli` repository sources:

* `src/templates/python/echo/client.py` — `EchoClientDispatcher.dispatch`,
  `EchoClientWorkload` (`__init__`, `on_start`, `on_stop`);
* `src/templates/python/echo/server.py` — `EchoService.echo`;
* `src/scripts/update-brew-formula.py` — `read_sha`, `replace_after_marker`,
  `main` (modelled as `formulaPipeline` / `update_main`).

Pure functions of the Python code become Lean functions; the asyncio state
(the workload object, the readiness event) becomes explicit state passing;
exceptions become `Except`; protobuf (de)serialization at the payload
boundary is modelled by a tagged `Payload` type with partial decoders, since
the generated protobuf module is external to the repository.
-/

/-- Protobuf message `EchoRequest` of the echo schema (field `message`). -/
structure EchoRequest where
  message : String
  deriving DecidableEq, Repr

/-- Protobuf message `EchoResponse` of the echo schema (fields `reply`,
`timestamp`).  The Python `timestamp` is `int(time.time())`; it is a natural
number here. -/
structure EchoResponse where
  reply : String
  timestamp : Nat
  deriving DecidableEq, Repr

/-- Serialized payload bytes at the dispatch boundary.  The repository treats
payloads as opaque bytes produced by protobuf `SerializeToString`; the model
tags each serialized value with its message type so that `FromString` is the
partial inverse of `SerializeToString`. -/
inductive Payload where
  | echoReq (r : EchoRequest)
  | echoResp (r : EchoResponse)
  deriving DecidableEq, Repr

/-- `pb2.EchoRequest.FromString`: decodes a payload as an `EchoRequest`,
failing (`none`, a raised `DecodeError` in Python) on a payload of another
shape. -/
def EchoRequest.fromPayload : Payload → Option EchoRequest
  | .echoReq r => some r
  | _ => none

/-- `pb2.EchoResponse.FromString`: decodes a payload as an `EchoResponse`. -/
def EchoResponse.fromPayload : Payload → Option EchoResponse
  | .echoResp r => some r
  | _ => none

/-- `actr.Dest`: address of a call target; the repository uses only
`Dest.actor(id)` with an opaque runtime-assigned identity (a `Nat` here). -/
inductive Dest where
  | actor (id : Nat)
  deriving DecidableEq, Repr

/-- `actr.ActrType("acme", "EchoService")`: a (namespace, service-name)
descriptor used for discovery. -/
structure ActrType where
  ns : String
  service : String
  deriving DecidableEq, Repr

/-- `asyncio.Event`: a one-way gate; `isSet` is the flag read by `wait()`. -/
structure AsyncEvent where
  isSet : Bool
  deriving DecidableEq, Repr

/-- `asyncio.Event.set()`: sets the flag; idempotent. -/
def AsyncEvent.set (_e : AsyncEvent) : AsyncEvent := ⟨true⟩

/-- The mutable fields of `EchoClientWorkload` set in `__init__`:
`self.server_type`, `self.server_id`, `self.ready`. -/
structure ClientState where
  server_type : ActrType
  server_id : Option Nat
  ready : AsyncEvent
  deriving DecidableEq, Repr

/-- `EchoClientWorkload.__init__`: `server_type = ActrType("acme",
"EchoService")`, `server_id = None`, `ready = asyncio.Event()` (unset). -/
def EchoClientWorkload.init : ClientState :=
  ⟨⟨"acme", "EchoService"⟩, none, ⟨false⟩⟩

/-- One outbound `ctx.call(dest, route_key, request)` issued during a
dispatch, recorded for the statement that the route key is forwarded
verbatim. -/
structure CallRecord where
  dest : Dest
  route_key : String
  payload : Payload
  deriving DecidableEq, Repr

/-- Result of one `dispatch` invocation.  `ok` is a returned payload;
`error` is a raised exception (handed to the runtime, which surfaces it to
the caller); `suspended` models `await workload.ready.wait()` on an event
that is not yet set: the coroutine is parked until `on_start` sets it. -/
inductive DispatchOutcome where
  | ok (p : Payload)
  | error (msg : String)
  | suspended
  deriving DecidableEq, Repr

/-- What one `EchoClientDispatcher.dispatch` invocation produces: its
outcome, the outbound calls it issued through `ctx`, and the workload state
it leaves behind (the dispatcher never assigns to workload fields). -/
structure DispatchResult where
  outcome : DispatchOutcome
  calls : List CallRecord
  workload : ClientState
  deriving Repr

/-- `EchoClientDispatcher.dispatch(self, workload, route_key, payload, ctx)`
from `src/templates/python/echo/client.py`, lines 22–42.  `ctx` is the
outbound-call capability `ctx.call(dest, route_key, request)`, modelled as a
function to the response bytes or a raised error. -/
def EchoClientDispatcher.dispatch (w : ClientState) (route_key : String)
    (payload : Payload) (ctx : Dest → String → Payload → Except String Payload) :
    DispatchResult :=
  if route_key ≠ "echo.EchoService.Echo" then
    ⟨.error ("Unknown route_key: " ++ route_key), [], w⟩
  else
    match EchoRequest.fromPayload payload with
    | none => ⟨.error "DecodeError", [], w⟩
    | some request =>
      -- `await workload.ready.wait()`: proceeds only once the event is set.
      if w.ready.isSet then
        match w.server_id with
        | none => ⟨.ok (Payload.echoResp ⟨"server not available", 0⟩), [], w⟩
        | some sid =>
          match ctx (Dest.actor sid) "echo.EchoService.Echo" (Payload.echoReq request) with
          | .error e =>
            ⟨.error e, [⟨Dest.actor sid, "echo.EchoService.Echo", Payload.echoReq request⟩], w⟩
          | .ok rb =>
            match EchoResponse.fromPayload rb with
            | none =>
              ⟨.error "DecodeError", [⟨Dest.actor sid, "echo.EchoService.Echo", Payload.echoReq request⟩], w⟩
            | some resp =>
              ⟨.ok (Payload.echoResp resp), [⟨Dest.actor sid, "echo.EchoService.Echo", Payload.echoReq request⟩], w⟩
      else ⟨.suspended, [], w⟩

/-- How the runtime presents a finished dispatch to the original caller. -/
inductive RuntimeView where
  | reply (p : Payload)
  | callFailure (msg : String)
  | awaiting
  deriving DecidableEq, Repr

/-- Modelled from the spec: the external actr runtime (not under this
repository's sources) catches an exception raised by a Dispatcher and
"surfaces \x5bit\x5d to the original caller as a call failure (not a crash)";
a returned payload is delivered as the reply; a dispatch parked on the
readiness gate is still awaiting.  No outcome crashes the receiving actor. -/
def runtimeSurface : DispatchOutcome → RuntimeView
  | .ok p => .reply p
  | .error m => .callFailure m
  | .suspended => .awaiting

/-- `EchoClientWorkload.on_start(self, ctx)` from
`src/templates/python/echo/client.py`, lines 52–62.  `ctx.discover` is an
awaited external operation; its outcome is the `d` argument: `.ok sid` when
discovery returns an identity, `.error e` when it raises `ActrRuntimeError`.
The second component of the result counts how many times `self.ready.set()`
was executed during the hook. -/
def EchoClientWorkload.on_start (w : ClientState) (d : Except String Nat) :
    ClientState × Nat :=
  match d with
  | .error _ =>
    -- `except ActrRuntimeError`: log, `self.ready.set()`, `return`.
    (⟨w.server_type, w.server_id, w.ready.set⟩, 1)
  | .ok sid =>
    -- `self.server_id = server_id; self.ready.set()`.
    (⟨w.server_type, some sid, w.ready.set⟩, 1)

/-- `EchoClientWorkload.on_stop(self, ctx)`: only logs; no state change. -/
def EchoClientWorkload.on_stop (w : ClientState) : ClientState := w

/-- `EchoService.echo(self, req, ctx)` from
`src/templates/python/echo/server.py`, lines 24–29.  `now` stands for
`int(time.time())`, the wall clock read inside the handler. -/
def EchoService.echo (req : EchoRequest) (now : Nat) : EchoResponse :=
  ⟨"Echo: " ++ req.message, now⟩

/-- Modelled from the spec: the generated `EchoServiceDispatcher` (under the
repository's `generated/` directory, absent from the sources) routes
`"echo.EchoService.Echo"` to the handler's `echo` method, decoding the
request and encoding the response; any other key is an unknown route.  Used
as the `ctx.call` oracle when the discovered peer is the echo server. -/
def echoServerCtx (now : Nat) : Dest → String → Payload → Except String Payload :=
  fun _ rk p =>
    if rk = "echo.EchoService.Echo" then
      match EchoRequest.fromPayload p with
      | some r => .ok (Payload.echoResp (EchoService.echo r now))
      | none => .error "DecodeError"
    else .error ("Unknown route_key: " ++ rk)

/-! ### `src/scripts/update-brew-formula.py` -/

/-- Python whitespace as used by `str.lstrip`/`str.strip`/`str.split` and the
regex class `\s` (restricted to the ASCII characters these lines can hold). -/
def pyIsSpace (c : Char) : Bool :=
  c == ' ' || c == '\t' || c == '\n' || c == '\r' || c == Char.ofNat 11 || c == Char.ofNat 12

/-- Python `str.lstrip()` (no argument): drop leading whitespace. -/
def pyLstrip (s : String) : String :=
  String.mk (s.toList.dropWhile pyIsSpace)

/-- Python `str.strip()` (no argument): drop whitespace at both ends. -/
def pyStrip (s : String) : String :=
  String.mk (((s.toList.dropWhile pyIsSpace).reverse.dropWhile pyIsSpace).reverse)

/-- Worker for `pyWords`: scan the characters, accumulating the current word
reversed. -/
def pyWordsGo : List Char → List Char → List String
  | [], cur => if cur = [] then [] else [String.mk cur.reverse]
  | c :: cs, cur =>
    if pyIsSpace c then
      if cur = [] then pyWordsGo cs [] else String.mk cur.reverse :: pyWordsGo cs []
    else pyWordsGo cs (c :: cur)

/-- Python `str.split()` (no argument): split on runs of whitespace, dropping
empty pieces. -/
def pyWords (s : String) : List String :=
  pyWordsGo s.toList []

/-- `needle` occurs as a contiguous sublist of `hay`. -/
def subOf (needle : List Char) : List Char → Bool
  | [] => needle.isPrefixOf []
  | h :: t => needle.isPrefixOf (h :: t) || subOf needle t

/-- Python `marker in line`: substring containment. -/
def pyContains (line marker : String) : Bool :=
  subOf marker.toList line.toList

/-- The leading-whitespace prefix of a line: the text captured by the group
`(\s*)` of `re.match(r"(\s*)url", line)` / `re.match(r"(\s*)sha256", line)`. -/
def indentOf (l : String) : String :=
  String.mk (l.toList.takeWhile pyIsSpace)

/-- `lines[j].lstrip().startswith("url ")`. -/
def isUrlLine (l : String) : Bool :=
  ("url ".toList).isPrefixOf (pyLstrip l).toList

/-- `lines[k].lstrip().startswith("sha256 ")`. -/
def isShaLine (l : String) : Bool :=
  ("sha256 ".toList).isPrefixOf (pyLstrip l).toList

/-- The replacement `lines[j] = f'{indent}url "{url}"'`. -/
def urlLineRepl (url l : String) : String :=
  indentOf l ++ "url \"" ++ url ++ "\""

/-- The replacement `lines[k] = f'{indent}sha256 "{sha}"'`. -/
def shaLineRepl (sha l : String) : String :=
  indentOf l ++ "sha256 \"" ++ sha ++ "\""

/-- The inner loop of `replace_after_marker` over `range(url_index + 1,
len(lines))`: replace the first line whose stripped form starts with
`"sha256 "`, or raise. -/
def findSha256 (marker sha : String) : List String → Except String (List String)
  | [] => .error ("sha256 line not found after marker: " ++ marker)
  | l :: ls =>
    if isShaLine l then .ok (shaLineRepl sha l :: ls)
    else
      match findSha256 marker sha ls with
      | .error e => .error e
      | .ok rest => .ok (l :: rest)

/-- The loop of `replace_after_marker` over `range(i + 1, len(lines))`:
replace the first line whose stripped form starts with `"url "` and then hand
the remainder to the sha256 loop, or raise. -/
def findUrl (marker url sha : String) : List String → Except String (List String)
  | [] => .error ("url line not found after marker: " ++ marker)
  | l :: ls =>
    if isUrlLine l then
      match findSha256 marker sha ls with
      | .error e => .error e
      | .ok rest => .ok (urlLineRepl url l :: rest)
    else
      match findUrl marker url sha ls with
      | .error e => .error e
      | .ok rest => .ok (l :: rest)

/-- `replace_after_marker(text, marker, url, sha)` from
`src/scripts/update-brew-formula.py`, lines 15–35, on the line list produced
by `text.splitlines()` (the result is re-joined with newlines).  The outer
`for` finds the first line containing `marker` and then either returns or
raises, so later marker occurrences are irrelevant. -/
def replace_after_marker (marker url sha : String) : List String → Except String (List String)
  | [] => .error ("Marker not found: " ++ marker)
  | l :: ls =>
    if pyContains l marker then
      match findUrl marker url sha ls with
      | .error e => .error e
      | .ok rest => .ok (l :: rest)
    else
      match replace_after_marker marker url sha ls with
      | .error e => .error e
      | .ok rest => .ok (l :: rest)

/-- `version = args.version.lstrip("v")`: strip every leading `'v'`. -/
def normalizeVersion (s : String) : String :=
  String.mk (s.toList.dropWhile (· == 'v'))

/-- `tag = f"v{version}"`. -/
def makeTag (s : String) : String :=
  "v" ++ normalizeVersion s

/-- The rust target triple of the `"macos-arm64"` entry of `targets`. -/
def targetMac : String := "aarch64-apple-darwin"

/-- The rust target triple of the `"linux-x86_64"` entry of `targets`. -/
def targetLinux : String := "x86_64-unknown-linux-gnu"

/-- The marker comment for the macOS block of the formula. -/
def markerMac : String := "# TARGET: macos-arm64"

/-- The marker comment for the Linux block of the formula. -/
def markerLinux : String := "# TARGET: linux-x86_64"

/-- `asset = f"actr-{version}-{target}.tar.gz"`. -/
def assetName (versionArg target : String) : String :=
  "actr-" ++ normalizeVersion versionArg ++ "-" ++ target ++ ".tar.gz"

/-- `url = f"https://github.com/{args.repo}/releases/download/{tag}/{asset}"`. -/
def downloadUrl (versionArg repo target : String) : String :=
  "https://github.com/" ++ repo ++ "/releases/download/" ++ makeTag versionArg
    ++ "/" ++ assetName versionArg target

/-- `read_sha(dist_dir, asset_name)` from `src/scripts/update-brew-formula.py`,
lines 8–12.  `files` is the file system: the contents of each existing path.
`sha_path.read_text().strip().split()[0]` raises `IndexError` when the file
holds only whitespace; otherwise it is the first whitespace-separated token. -/
def read_sha (files : String → Option String) (dist_dir asset : String) :
    Except String String :=
  match files (dist_dir ++ "/" ++ asset ++ ".sha256") with
  | none => .error ("Missing sha256 file: " ++ dist_dir ++ "/" ++ asset ++ ".sha256")
  | some content =>
    match pyWords (pyStrip content) with
    | [] => .error "IndexError: list index out of range"
    | tok :: _ => .ok tok

/-- One line under `re.subn(r'^(\s*version\s+")([^"]+)(")', rf"\1{version}\3",
text, flags=re.MULTILINE)`: if the line starts with whitespace, the literal
`version`, at least one whitespace, and a nonempty double-quoted string, the
quoted content is replaced by `version` and the count is 1; otherwise the
line is unchanged and the count is 0.  (The per-line model is faithful to
the MULTILINE regex whenever quotes are closed on the line they open on.) -/
def subnVersionLine (version line : String) : String × Nat :=
  let cs := line.toList
  let ws1 := cs.takeWhile pyIsSpace
  let r1 := cs.dropWhile pyIsSpace
  if ("version".toList).isPrefixOf r1 then
    let r2 := r1.drop 7
    let ws2 := r2.takeWhile pyIsSpace
    let r3 := r2.dropWhile pyIsSpace
    if ws2 = [] then (line, 0)
    else
      match r3 with
      | '"' :: r4 =>
        let content := r4.takeWhile (· ≠ '"')
        let r5 := r4.dropWhile (· ≠ '"')
        if content = [] then (line, 0)
        else
          match r5 with
          | '"' :: rest =>
            (String.mk (ws1 ++ "version".toList ++ ws2 ++ '"' :: version.toList ++ '"' :: rest), 1)
          | _ => (line, 0)
      | _ => (line, 0)
  else (line, 0)

/-- The whole `re.subn` over the formula text, line by line: the rewritten
lines and the total replacement count. -/
def subnVersion (version : String) : List String → List String × Nat
  | [] => ([], 0)
  | l :: ls =>
    ((subnVersionLine version l).1 :: (subnVersion version ls).1,
      (subnVersionLine version l).2 + (subnVersion version ls).2)

/-- The computation of `main()` from `src/scripts/update-brew-formula.py`,
lines 38–90, up to (but not including) the final `formula_path.write_text`:
read both sha256 files (macos-arm64 first, then linux-x86_64, the insertion
order of `targets`), substitute the version line, then apply
`replace_after_marker` for each target in the same order.  The formula text
has already been read (`formula_path.read_text()` precedes all of this) and
is passed in as `formulaLines`. -/
def formulaPipeline (versionArg repo dist : String) (files : String → Option String)
    (formulaLines : List String) : Except String (List String) :=
  match read_sha files dist (assetName versionArg targetMac) with
  | .error e => .error e
  | .ok shaMac =>
    match read_sha files dist (assetName versionArg targetLinux) with
    | .error e => .error e
    | .ok shaLinux =>
      if (subnVersion (normalizeVersion versionArg) formulaLines).2 = 0 then
        .error "version line not found in formula"
      else
        match replace_after_marker markerMac (downloadUrl versionArg repo targetMac)
            shaMac (subnVersion (normalizeVersion versionArg) formulaLines).1 with
        | .error e => .error e
        | .ok l2 =>
          match replace_after_marker markerLinux (downloadUrl versionArg repo targetLinux)
              shaLinux l2 with
          | .error e => .error e
          | .ok l3 => .ok l3

/-- What a run of `main()` does to the outside world: the list of contents
written to the formula file (in order), and the exit: `.ok 0` for `return 0`,
`.error e` for a raised exception. -/
structure MainResult where
  writes : List (List String)
  exitCode : Except String Nat

/-- `main()` of `src/scripts/update-brew-formula.py`: on any raised step the
exception propagates and nothing is written; `formula_path.write_text(text)`
runs once, last, on success. -/
def update_main (versionArg repo dist : String) (files : String → Option String)
    (formulaLines : List String) : MainResult :=
  match formulaPipeline versionArg repo dist files formulaLines with
  | .error e => ⟨[], .error e⟩
  | .ok l3 => ⟨[l3], .ok 0⟩

/-! ### Definitions following the words of claim C8 (for its refutation)

Claim C8 designates the url line as "the first line at or after the first
marker-containing line" whose stripped content starts with `"url "`, and the
sha256 line as the first subsequent one starting with `"sha256 "`.  These
index functions transcribe that wording. -/

/-- Index of the first element satisfying `p`. -/
def firstIdxSatisfying (p : String → Bool) : List String → Option Nat
  | [] => none
  | l :: ls => if p l then some 0 else (firstIdxSatisfying p ls).map (· + 1)

/-- The claim's url index: the first index at or after the first
marker-containing line whose line satisfies `isUrlLine`. -/
def claimUrlIdx (marker : String) (lines : List String) : Option Nat :=
  match firstIdxSatisfying (fun l => pyContains l marker) lines with
  | none => none
  | some i => (firstIdxSatisfying isUrlLine (lines.drop i)).map (· + i)

/-- The claim's sha256 index: the first index strictly after the claim's url
index whose line satisfies `isShaLine`. -/
def claimShaIdx (marker : String) (lines : List String) : Option Nat :=
  match claimUrlIdx marker lines with
  | none => none
  | some j => (firstIdxSatisfying isShaLine (lines.drop (j + 1))).map (· + (j + 1))

/-! ### Claim theorems -/

/-- C1: for every route key other than `"echo.EchoService.Echo"`,
`EchoClientDispatcher.dispatch` raises `Unknown route_key`, which the runtime
surfaces to the original caller as a call failure; no outbound call is issued
and the receiving workload's state is untouched (no crash). -/
theorem EchoClientDispatcher.dispatch_unknown_route (w : ClientState) (rk : String)
    (p : Payload) (ctx : Dest → String → Payload → Except String Payload)
    (h : rk ≠ "echo.EchoService.Echo") :
    runtimeSurface (EchoClientDispatcher.dispatch w rk p ctx).outcome
        = RuntimeView.callFailure ("Unknown route_key: " ++ rk)
      ∧ (EchoClientDispatcher.dispatch w rk p ctx).calls = []
      ∧ (EchoClientDispatcher.dispatch w rk p ctx).workload = w := by
  unfold EchoClientDispatcher.dispatch
  rw [if_pos h]
  exact ⟨rfl, rfl, rfl⟩

/-- Witness for C1 at the concrete route key `"bogus"`. -/
theorem EchoClientDispatcher.dispatch_unknown_route_witness :
    ("bogus" ≠ "echo.EchoService.Echo")
      ∧ runtimeSurface (EchoClientDispatcher.dispatch EchoClientWorkload.init "bogus"
            (Payload.echoReq ⟨"hi"⟩) (fun _ _ _ => Except.error "down")).outcome
          = RuntimeView.callFailure ("Unknown route_key: " ++ "bogus") :=
  ⟨by decide,
    (EchoClientDispatcher.dispatch_unknown_route EchoClientWorkload.init "bogus"
      (Payload.echoReq ⟨"hi"⟩) (fun _ _ _ => Except.error "down") (by decide)).1⟩

/-- C2: once readiness has been signaled, a dispatch of
`"echo.EchoService.Echo"` with no discovered peer (`server_id = None`)
returns the serialized `EchoResponse(reply="server not available",
timestamp=0)` — it neither suspends nor fails, and issues no outbound call. -/
theorem EchoClientDispatcher.dispatch_server_absent_degraded (w : ClientState)
    (r : EchoRequest) (ctx : Dest → String → Payload → Except String Payload)
    (hready : w.ready.isSet = true) (hsid : w.server_id = none) :
    EchoClientDispatcher.dispatch w "echo.EchoService.Echo" (Payload.echoReq r) ctx
      = ⟨.ok (Payload.echoResp ⟨"server not available", 0⟩), [], w⟩ := by
  unfold EchoClientDispatcher.dispatch
  rw [if_neg (by simp)]
  simp [EchoRequest.fromPayload, hready, hsid]

/-- Witness for C2 at a concrete ready workload with no peer. -/
theorem EchoClientDispatcher.dispatch_server_absent_degraded_witness :
    EchoClientDispatcher.dispatch ⟨⟨"acme", "EchoService"⟩, none, ⟨true⟩⟩
        "echo.EchoService.Echo" (Payload.echoReq ⟨"hi"⟩) (fun _ _ _ => Except.error "down")
      = ⟨.ok (Payload.echoResp ⟨"server not available", 0⟩), [],
          ⟨⟨"acme", "EchoService"⟩, none, ⟨true⟩⟩⟩ :=
  EchoClientDispatcher.dispatch_server_absent_degraded
    ⟨⟨"acme", "EchoService"⟩, none, ⟨true⟩⟩ ⟨"hi"⟩ (fun _ _ _ => Except.error "down") rfl rfl

/-- C3: every run of `EchoClientWorkload.on_start` executes
`self.ready.set()` exactly once, and the readiness event is set by the end of
the hook, whether discovery succeeded (`.ok`) or raised (`.error`). -/
theorem EchoClientWorkload.on_start_sets_ready_once (w : ClientState)
    (d : Except String Nat) :
    (EchoClientWorkload.on_start w d).2 = 1
      ∧ (EchoClientWorkload.on_start w d).1.ready.isSet = true := by
  cases d <;> exact ⟨rfl, rfl⟩

/-- C4: when `ctx.discover` raises `ActrRuntimeError`, `on_start` catches the
exception and returns normally: `server_id` is left exactly as it was (and so
stays `None` from `__init__`), and readiness is still signaled so startup
continues in the degraded state. -/
theorem EchoClientWorkload.on_start_discover_failure_continues (w : ClientState)
    (e : String) :
    (EchoClientWorkload.on_start w (Except.error e)).1.server_id = w.server_id
      ∧ (EchoClientWorkload.on_start EchoClientWorkload.init (Except.error e)).1.server_id = none
      ∧ (EchoClientWorkload.on_start w (Except.error e)).1.ready.isSet = true :=
  ⟨rfl, rfl, rfl⟩

/-- C5: with a discovered peer `B` and the echo server answering
`ctx.call`, a dispatch of `"echo.EchoService.Echo"` with request message `m`
returns the serialized `EchoResponse(reply="Echo: " + m, timestamp=now)`
through exactly one outbound call to `B`; the timestamp ``int(time.time())``
is nonzero for any positive clock reading. -/
theorem EchoClientDispatcher.dispatch_echo_roundtrip (w : ClientState) (m : String)
    (B now : Nat) (hready : w.ready.isSet = true) (hsid : w.server_id = some B)
    (hnow : 0 < now) :
    EchoClientDispatcher.dispatch w "echo.EchoService.Echo" (Payload.echoReq ⟨m⟩)
        (echoServerCtx now)
      = ⟨.ok (Payload.echoResp ⟨"Echo: " ++ m, now⟩),
          [⟨Dest.actor B, "echo.EchoService.Echo", Payload.echoReq ⟨m⟩⟩], w⟩
      ∧ (EchoService.echo ⟨m⟩ now).reply = "Echo: " ++ m
      ∧ (EchoService.echo ⟨m⟩ now).timestamp ≠ 0 := by
  refine ⟨?_, rfl, Nat.pos_iff_ne_zero.mp hnow⟩
  unfold EchoClientDispatcher.dispatch
  rw [if_neg (by simp)]
  simp [EchoRequest.fromPayload, hready, hsid, echoServerCtx, EchoService.echo,
    EchoResponse.fromPayload]

/-- Witness for C5: message `"hi"` against peer `7` at clock reading `42`
yields reply `"Echo: hi"`. -/
theorem EchoClientDispatcher.dispatch_echo_roundtrip_witness :
    EchoClientDispatcher.dispatch ⟨⟨"acme", "EchoService"⟩, some 7, ⟨true⟩⟩
        "echo.EchoService.Echo" (Payload.echoReq ⟨"hi"⟩) (echoServerCtx 42)
      = ⟨.ok (Payload.echoResp ⟨"Echo: hi", 42⟩),
          [⟨Dest.actor 7, "echo.EchoService.Echo", Payload.echoReq ⟨"hi"⟩⟩],
          ⟨⟨"acme", "EchoService"⟩, some 7, ⟨true⟩⟩⟩
      ∧ (EchoService.echo ⟨"hi"⟩ 42).reply = "Echo: hi"
      ∧ (EchoService.echo ⟨"hi"⟩ 42).timestamp ≠ 0 :=
  EchoClientDispatcher.dispatch_echo_roundtrip
    ⟨⟨"acme", "EchoService"⟩, some 7, ⟨true⟩⟩ "hi" 7 42 rfl rfl (by decide)

/-- The client dispatcher never assigns to the workload object: the state it
leaves is the state it received. -/
theorem EchoClientDispatcher.dispatch_workload_eq (w : ClientState) (rk : String)
    (p : Payload) (ctx : Dest → String → Payload → Except String Payload) :
    (EchoClientDispatcher.dispatch w rk p ctx).workload = w := by
  unfold EchoClientDispatcher.dispatch
  repeat' split
  all_goals rfl

/-- C6: the readiness event starts unset in `__init__` and is monotonic: once
set, none of the workload's operations (`on_start`, `on_stop`, or a
`dispatch`) ever clears it, so no waiter can observe a reversal from
"ready" back to "not ready". -/
theorem EchoClientWorkload.readiness_monotonic :
    EchoClientWorkload.init.ready.isSet = false
      ∧ ∀ (w : ClientState) (d : Except String Nat) (rk : String) (p : Payload)
          (ctx : Dest → String → Payload → Except String Payload),
          w.ready.isSet = true →
            (EchoClientWorkload.on_start w d).1.ready.isSet = true
              ∧ (EchoClientWorkload.on_stop w).ready.isSet = true
              ∧ (EchoClientDispatcher.dispatch w rk p ctx).workload.ready.isSet = true := by
  refine ⟨rfl, fun w d rk p ctx h => ⟨?_, h, ?_⟩⟩
  · cases d <;> rfl
  · rw [EchoClientDispatcher.dispatch_workload_eq]
    exact h

/-- Witness for C6 at a concrete ready workload. -/
theorem EchoClientWorkload.readiness_monotonic_witness :
    (EchoClientWorkload.on_start ⟨⟨"acme", "EchoService"⟩, none, ⟨true⟩⟩
        (Except.error "discovery failed")).1.ready.isSet = true
      ∧ (EchoClientWorkload.on_stop ⟨⟨"acme", "EchoService"⟩, none, ⟨true⟩⟩).ready.isSet = true
      ∧ (EchoClientDispatcher.dispatch ⟨⟨"acme", "EchoService"⟩, none, ⟨true⟩⟩ "bogus"
            (Payload.echoReq ⟨"hi"⟩) (fun _ _ _ => Except.error "down")).workload.ready.isSet
          = true :=
  EchoClientWorkload.readiness_monotonic.2 ⟨⟨"acme", "EchoService"⟩, none, ⟨true⟩⟩
    (Except.error "discovery failed") "bogus" (Payload.echoReq ⟨"hi"⟩)
    (fun _ _ _ => Except.error "down") rfl

/-- C7: every outbound call the client dispatcher issues through `ctx.call`
carries route key equal, character for character, to the route key the
dispatch received and matched. -/
theorem EchoClientDispatcher.dispatch_route_key_forwarded_verbatim (w : ClientState)
    (rk : String) (p : Payload) (ctx : Dest → String → Payload → Except String Payload) :
    ∀ c ∈ (EchoClientDispatcher.dispatch w rk p ctx).calls, c.route_key = rk := by
  intro c hc
  unfold EchoClientDispatcher.dispatch at hc
  split at hc
  · simp at hc
  · rename_i hne
    have hrk : rk = "echo.EchoService.Echo" := not_not.mp hne
    subst hrk
    repeat' split at hc
    all_goals simp at hc
    all_goals (subst hc; rfl)

/-- Witness for C7: a dispatch that issues one outbound call, whose recorded
route key equals the incoming `"echo.EchoService.Echo"`. -/
theorem EchoClientDispatcher.dispatch_route_key_forwarded_verbatim_witness :
    CallRecord.route_key ⟨Dest.actor 7, "echo.EchoService.Echo", Payload.echoReq ⟨"hi"⟩⟩
      = "echo.EchoService.Echo" :=
  EchoClientDispatcher.dispatch_route_key_forwarded_verbatim
    ⟨⟨"acme", "EchoService"⟩, some 7, ⟨true⟩⟩ "echo.EchoService.Echo"
    (Payload.echoReq ⟨"hi"⟩) (echoServerCtx 42)
    ⟨Dest.actor 7, "echo.EchoService.Echo", Payload.echoReq ⟨"hi"⟩⟩ (by decide)

/-- Inversion of the sha256 loop: a successful `findSha256` splits its input
at the first `sha256` line, replaces exactly that line (indentation
preserved, by `shaLineRepl`) and keeps every other line in place. -/
theorem findSha256_ok (marker sha : String) :
    ∀ ls out, findSha256 marker sha ls = .ok out →
      ∃ c s d, ls = c ++ s :: d ∧ (∀ l ∈ c, isShaLine l = false)
        ∧ isShaLine s = true ∧ out = c ++ shaLineRepl sha s :: d := by
  intro ls
  induction ls with
  | nil => intro out h; simp [findSha256] at h
  | cons l ls ih =>
    intro out h
    rw [findSha256] at h
    split at h
    · rename_i hl
      injection h with h
      subst h
      exact ⟨[], l, ls, rfl, by simp, hl, rfl⟩
    · rename_i hl
      split at h
      · exact absurd h (by simp)
      · rename_i rest hrec
        injection h with h
        subst h
        obtain ⟨c, s, d, h1, h2, h3, h4⟩ := ih rest hrec
        refine ⟨l :: c, s, d, by simp [h1], ?_, h3, by simp [h4]⟩
        intro x hx
        rcases List.mem_cons.mp hx with hx | hx
        · subst hx; simpa using hl
        · exact h2 x hx

/-- Inversion of the url loop: a successful `findUrl` splits its input at the
first `url` line, replaces exactly that line (indentation preserved) and runs
the sha256 loop on the lines after it, keeping every other line in place. -/
theorem findUrl_ok (marker url sha : String) :
    ∀ ls out, findUrl marker url sha ls = .ok out →
      ∃ b u t rest, ls = b ++ u :: t ∧ (∀ l ∈ b, isUrlLine l = false)
        ∧ isUrlLine u = true ∧ findSha256 marker sha t = .ok rest
        ∧ out = b ++ urlLineRepl url u :: rest := by
  intro ls
  induction ls with
  | nil => intro out h; simp [findUrl] at h
  | cons l ls ih =>
    intro out h
    rw [findUrl] at h
    split at h
    · rename_i hl
      split at h
      · exact absurd h (by simp)
      · rename_i rest hrec
        injection h with h
        subst h
        exact ⟨[], l, ls, rest, rfl, by simp, hl, hrec, rfl⟩
    · rename_i hl
      split at h
      · exact absurd h (by simp)
      · rename_i rest hrec
        injection h with h
        subst h
        obtain ⟨b, u, t, rest2, h1, h2, h3, h4, h5⟩ := ih rest hrec
        refine ⟨l :: b, u, t, rest2, by simp [h1], ?_, h3, h4, by simp [h5]⟩
        intro x hx
        rcases List.mem_cons.mp hx with hx | hx
        · subst hx; simpa using hl
        · exact h2 x hx

/-- Inversion of the marker loop: a successful `replace_after_marker` splits
its input at the first marker-containing line and runs the url loop on the
lines strictly after it, keeping the prefix and the marker line in place. -/
theorem replace_after_marker_ok (marker url sha : String) :
    ∀ ls out, replace_after_marker marker url sha ls = .ok out →
      ∃ a m t rest, ls = a ++ m :: t ∧ (∀ l ∈ a, pyContains l marker = false)
        ∧ pyContains m marker = true ∧ findUrl marker url sha t = .ok rest
        ∧ out = a ++ m :: rest := by
  intro ls
  induction ls with
  | nil => intro out h; simp [replace_after_marker] at h
  | cons l ls ih =>
    intro out h
    rw [replace_after_marker] at h
    split at h
    · rename_i hl
      split at h
      · exact absurd h (by simp)
      · rename_i rest hrec
        injection h with h
        subst h
        exact ⟨[], l, ls, rest, rfl, by simp, hl, hrec, rfl⟩
    · rename_i hl
      split at h
      · exact absurd h (by simp)
      · rename_i rest hrec
        injection h with h
        subst h
        obtain ⟨a, m, t, rest2, h1, h2, h3, h4, h5⟩ := ih rest hrec
        refine ⟨l :: a, m, t, rest2, by simp [h1], ?_, h3, h4, by simp [h5]⟩
        intro x hx
        rcases List.mem_cons.mp hx with hx | hx
        · subst hx; simpa using hl
        · exact h2 x hx

/-- C8 (amended): when `replace_after_marker` succeeds, the input splits as
prefix `a`, the first marker-containing line `m`, lines `b`, the first
url line `u` strictly after `m`, lines `c`, the first subsequent sha256 line
`s`, and suffix `d`; the output is the same list with exactly `u` and `s`
replaced, each keeping its original leading indentation.  In particular line
count and order are unchanged and every line other than `u` and `s` is kept
verbatim. -/
theorem replace_after_marker_frame (marker url sha : String) (lines out : List String)
    (h : replace_after_marker marker url sha lines = .ok out) :
    ∃ a m b u c s d,
      lines = a ++ m :: (b ++ u :: (c ++ s :: d))
        ∧ (∀ l ∈ a, pyContains l marker = false) ∧ pyContains m marker = true
        ∧ (∀ l ∈ b, isUrlLine l = false) ∧ isUrlLine u = true
        ∧ (∀ l ∈ c, isShaLine l = false) ∧ isShaLine s = true
        ∧ urlLineRepl url u = indentOf u ++ "url \"" ++ url ++ "\""
        ∧ shaLineRepl sha s = indentOf s ++ "sha256 \"" ++ sha ++ "\""
        ∧ out = a ++ m :: (b ++ urlLineRepl url u :: (c ++ shaLineRepl sha s :: d)) := by
  obtain ⟨a, m, t, rest, h1, h2, h3, h4, h5⟩ :=
    replace_after_marker_ok marker url sha lines out h
  obtain ⟨b, u, t2, rest2, g1, g2, g3, g4, g5⟩ := findUrl_ok marker url sha t rest h4
  obtain ⟨c, s, d, k1, k2, k3, k4⟩ := findSha256_ok marker sha t2 rest2 g4
  subst h1 g1 k1 h5 g5 k4
  exact ⟨a, m, b, u, c, s, d, rfl, h2, h3, g2, g3, k2, k3, rfl, rfl, rfl⟩

/-- Witness for C8 on a concrete three-line formula fragment. -/
theorem replace_after_marker_frame_witness :
    ∃ a m b u c s d,
      (["# TARGET: macos-arm64", "  url \"old\"", "  sha256 \"old\""] : List String)
          = a ++ m :: (b ++ u :: (c ++ s :: d))
        ∧ (∀ l ∈ a, pyContains l "# TARGET: macos-arm64" = false)
        ∧ pyContains m "# TARGET: macos-arm64" = true
        ∧ (∀ l ∈ b, isUrlLine l = false) ∧ isUrlLine u = true
        ∧ (∀ l ∈ c, isShaLine l = false) ∧ isShaLine s = true
        ∧ urlLineRepl "U" u = indentOf u ++ "url \"" ++ "U" ++ "\""
        ∧ shaLineRepl "S" s = indentOf s ++ "sha256 \"" ++ "S" ++ "\""
        ∧ ["# TARGET: macos-arm64", "  url \"U\"", "  sha256 \"S\""]
            = a ++ m :: (b ++ urlLineRepl "U" u :: (c ++ shaLineRepl "S" s :: d)) :=
  replace_after_marker_frame "# TARGET: macos-arm64" "U" "S"
    ["# TARGET: macos-arm64", "  url \"old\"", "  sha256 \"old\""]
    ["# TARGET: macos-arm64", "  url \"U\"", "  sha256 \"S\""] (by rfl)

/-- Counterexample to C8 as stated: with marker `"M"` on the lines
`["url M", " url \"x\"", " sha256 \"y\""]`, the first marker-containing line
is line 0, which itself starts with `"url "`, so the claim's "first line at
or after the first marker-containing line" starting with `"url "` is line 0
and its sha256 line is line 2 — yet the code replaces line 1 (the first url
line strictly after the marker), a line the claim requires to stay
unchanged. -/
theorem replace_after_marker_at_or_after_cex :
    replace_after_marker "M" "U" "S" ["url M", " url \"x\"", " sha256 \"y\""]
        = .ok ["url M", " url \"U\"", " sha256 \"S\""]
      ∧ claimUrlIdx "M" ["url M", " url \"x\"", " sha256 \"y\""] = some 0
      ∧ claimShaIdx "M" ["url M", " url \"x\"", " sha256 \"y\""] = some 2
      ∧ (["url M", " url \"U\"", " sha256 \"S\""] : List String)[1]?
          ≠ (["url M", " url \"x\"", " sha256 \"y\""] : List String)[1]?
      ∧ (1 : Nat) ≠ 0 ∧ (1 : Nat) ≠ 2 := by
  refine ⟨by rfl, by decide, by decide, by decide, by decide, by decide⟩

/-- C9: `main` of the formula-update script is atomic on error: the formula
file is written exactly once and only when both sha256 files were read, the
version substitution matched, and both marker replacements succeeded; if the
run raises, nothing is written, so the formula file on disk is unchanged. -/
theorem update_main_write_atomic (v repo dist : String) (files : String → Option String)
    (lines : List String) :
    (∀ e, (update_main v repo dist files lines).exitCode = .error e →
        (update_main v repo dist files lines).writes = [])
      ∧ ((update_main v repo dist files lines).exitCode = .ok 0 →
        ∃ shaMac shaLinux l2 l3,
          read_sha files dist (assetName v targetMac) = .ok shaMac
            ∧ read_sha files dist (assetName v targetLinux) = .ok shaLinux
            ∧ (subnVersion (normalizeVersion v) lines).2 ≠ 0
            ∧ replace_after_marker markerMac (downloadUrl v repo targetMac) shaMac
                (subnVersion (normalizeVersion v) lines).1 = .ok l2
            ∧ replace_after_marker markerLinux (downloadUrl v repo targetLinux) shaLinux l2
                = .ok l3
            ∧ (update_main v repo dist files lines).writes = [l3]) := by
  cases hp : formulaPipeline v repo dist files lines with
  | error e =>
    refine ⟨fun e2 h2 => ?_, fun h => ?_⟩
    · simp [update_main, hp]
    · exfalso
      simp [update_main, hp] at h
  | ok lfin =>
    refine ⟨fun e2 h2 => ?_, fun h => ?_⟩
    · exfalso
      simp [update_main, hp] at h2
    · have hp2 := hp
      unfold formulaPipeline at hp2
      split at hp2
      · exact absurd hp2 (by simp)
      · rename_i shaMac h1
        split at hp2
        · exact absurd hp2 (by simp)
        · rename_i shaLinux hL
          split at hp2
          · exact absurd hp2 (by simp)
          · rename_i hn
            split at hp2
            · exact absurd hp2 (by simp)
            · rename_i l2 h3
              split at hp2
              · exact absurd hp2 (by simp)
              · rename_i l3 h4
                injection hp2 with hp2
                subst hp2
                exact ⟨shaMac, shaLinux, l2, l3, h1, hL, hn, h3, h4, by simp [update_main, hp]⟩

/-- Witness for C9: with no sha256 files on disk, the run fails on the first
`read_sha` and writes nothing. -/
theorem update_main_write_atomic_witness :
    (update_main "1.2.3" "actor-rtc/actr" "dist" (fun _ => (none : Option String)) []).writes
      = [] :=
  (update_main_write_atomic "1.2.3" "actor-rtc/actr" "dist" (fun _ => (none : Option String))
      []).1
    "Missing sha256 file: dist/actr-1.2.3-aarch64-apple-darwin.tar.gz.sha256" (by rfl)

/-- C10: `version = args.version.lstrip("v")` strips every leading `'v'` and
`tag = "v" + version`, so the inputs `s` and `"v" + s` produce identical
versions, tags, asset names and download URLs; in particular `"vv1.2.3"`,
`"v1.2.3"` and `"1.2.3"` all yield version `"1.2.3"` and tag `"v1.2.3"`. -/
theorem version_normalization_v_invariant (s repo t : String) :
    normalizeVersion ("v" ++ s) = normalizeVersion s
      ∧ makeTag ("v" ++ s) = makeTag s
      ∧ assetName ("v" ++ s) t = assetName s t
      ∧ downloadUrl ("v" ++ s) repo t = downloadUrl s repo t
      ∧ normalizeVersion "vv1.2.3" = "1.2.3" ∧ normalizeVersion "v1.2.3" = "1.2.3"
      ∧ normalizeVersion "1.2.3" = "1.2.3"
      ∧ makeTag "vv1.2.3" = "v1.2.3" ∧ makeTag "v1.2.3" = "v1.2.3"
      ∧ makeTag "1.2.3" = "v1.2.3" := by
  have key : normalizeVersion ("v" ++ s) = normalizeVersion s := rfl
  refine ⟨key, ?_, ?_, ?_, rfl, rfl, rfl, rfl, rfl, rfl⟩
  · simp [makeTag, key]
  · simp [assetName, key]
  · simp [downloadUrl, makeTag, assetName, key]
